import Mathlib

/-!
# Faculty CIS Sheet Generator — verification of the table-extraction core

Shallow embedding of the spreadsheet-extraction functions of `app.py`
(`extract_co_mapping`, `extract_co_pso_mapping`, `extract_po_attainment`,
`extract_po_evaluation_table`, `extract_target_value`, and the inlined
summary-value scans of `create_word_report`).

Modelling conventions:
* A spreadsheet cell is one of {absent, integer, float, text}.  `Cell.absent`
  models a pandas `NaN` / openpyxl `None`; `Cell.intv` an openpyxl integer
  cell; `Cell.num` a float cell, represented exactly as a rational (floats in
  the source only ever flow through parsing, rounding and 2-decimal
  formatting, all of which are modelled on ℚ); `Cell.str` a text cell.
* A sheet (`pd.read_excel(..., header=None)` result) is a list of rows of
  cells; `rectangular` pads the rows to equal width with `absent`, exactly as
  the DataFrame constructor does.
* `df.dropna(axis=1, how='all')` is `dropEmptyCols`.
* Python's `str(x)` of a cell is `cellStr` (`str(nan) = "nan"`); whole-number
  floats render as Python does (`str(2.0) = "2.0"`); non-integral rationals
  use the canonical fraction form — a deliberate simplification, harmless
  here because every marker literal the source compares against contains
  letters, which no numeral rendering can produce.
* Python `float(...)` / `pd.to_numeric` on decimal-literal strings is
  `parseRat` (sign, digits, optional fraction part, surrounding whitespace;
  exponents / `inf` / `nan` words are not modelled — no claim depends on
  them).
* A raised exception is `Except.error`; `None` returns are `Option.none`.
-/

/-- A spreadsheet cell: absent (NaN/None), an integer, a float (modelled as
an exact rational), or a text string. -/
inductive Cell where
  | absent : Cell
  | intv : ℤ → Cell
  | num : ℚ → Cell
  | str : String → Cell
  deriving Repr, DecidableEq

/-- `pd.isna` on a cell. -/
def Cell.isAbsent : Cell → Bool
  | .absent => true
  | _ => false

/-- Python `isinstance(cell, (int, float))`. -/
def Cell.isNumber : Cell → Bool
  | .intv _ => true
  | .num _ => true
  | _ => false

/-- Python `s.upper()` (character-wise, over the string's character list so
that it evaluates by kernel reduction). -/
def String.pyUpper (s : String) : String := ⟨s.data.map Char.toUpper⟩

/-- Python `s.lower()`. -/
def String.pyLower (s : String) : String := ⟨s.data.map Char.toLower⟩

/-- Python `s.strip()`: drop whitespace from both ends. -/
def String.pyStrip (s : String) : String :=
  ⟨((s.data.dropWhile Char.isWhitespace).reverse.dropWhile Char.isWhitespace).reverse⟩

/-- Python `s.startswith(p)`. -/
def String.pyStartsWith (s p : String) : Bool := p.data.isPrefixOf s.data

/-- Rendering of a float cell by Python `str`: exact for whole numbers
(`str(2.0) = "2.0"`); other rationals use the canonical fraction form (see
module comment). -/
def numToStr (q : ℚ) : String :=
  if q.den = 1 then toString q.num ++ ".0" else toString q

/-- Python `str(x)` of a cell value (`str(float('nan')) = "nan"`,
`str(7) = "7"`). -/
def cellStr : Cell → String
  | .absent => "nan"
  | .intv n => toString n
  | .num q => numToStr q
  | .str s => s

/-- `str(cell).strip() if cell is not None else ""` (openpyxl row rendering
used by `extract_target_value`). -/
def cellStrBlank (c : Cell) : String :=
  if c.isAbsent then "" else (cellStr c).pyStrip

/-- `str(cell)` where the cell may be `None` (openpyxl scans in
`create_word_report`): `str(None) = "None"`. -/
def cellStrNone (c : Cell) : String :=
  if c.isAbsent then "None" else cellStr c

/-- Substring test: Python's `pat in s`. -/
def strContains (s pat : String) : Bool :=
  (List.range (s.toList.length + 1)).any (fun k => pat.toList.isPrefixOf (s.toList.drop k))

/-- Value of a digit string read in base 10. -/
def digitsToNat (ds : List Char) : ℕ :=
  ds.foldl (fun a c => a * 10 + (c.toNat - 48)) 0

/-- Python `float(s)` (and `pd.to_numeric` on a string) restricted to plain
decimal literals: optional surrounding whitespace, optional sign, digits
with an optional fractional part.  Returns `none` when parsing fails (the
`ValueError` / `NaN`-coercion path of the source).  The value
`sign * (ip ++ "." ++ fp)` is built with `mkRat` so that it evaluates by
kernel reduction. -/
def parseRat (s : String) : Option ℚ :=
  let cs := s.pyStrip.toList
  let signed : Bool × List Char :=
    match cs with
    | '-' :: r => (true, r)
    | '+' :: r => (false, r)
    | r => (false, r)
  let ip := signed.2.takeWhile Char.isDigit
  let rest := signed.2.dropWhile Char.isDigit
  let core : Option (ℤ × ℕ) :=
    match rest with
    | [] => if ip.isEmpty then none else some ((digitsToNat ip : ℤ), 1)
    | '.' :: fr =>
      let fp := fr.takeWhile Char.isDigit
      let rest2 := fr.dropWhile Char.isDigit
      if rest2.isEmpty && !(ip.isEmpty && fp.isEmpty) then
        some ((digitsToNat ip * 10 ^ fp.length + digitsToNat fp : ℤ), 10 ^ fp.length)
      else none
    | _ => none
  core.map (fun nd => mkRat (if signed.1 then -nd.1 else nd.1) nd.2)

/-- Banker's rounding (round-half-to-even) of the exact fraction `n / d`
with `d > 0` — the tie rule of Python's `round` and numpy's `.round`,
computed with integer arithmetic only. -/
def roundHalfEven (n : ℤ) (d : ℕ) : ℤ :=
  let f := Int.fdiv n d
  let r := n - f * d
  if 2 * r < (d : ℤ) then f
  else if (d : ℤ) < 2 * r then f + 1
  else if f % 2 = 0 then f else f + 1

/-- Rounding to 2 decimal places (`round(x, 2)` / `.round(2)`): the integer
number of hundredths nearest to `q` (ties to even), over 100. -/
def round2 (q : ℚ) : ℚ := mkRat (roundHalfEven (100 * q.num) q.den) 100

/-- Python `f"{x:.2f}"` formatting of a float. -/
def formatRat2 (q : ℚ) : String :=
  let m : ℤ := roundHalfEven (100 * q.num) q.den
  let a := m.natAbs
  let fr := a % 100
  (if m < 0 then "-" else "") ++ toString (a / 100) ++ "." ++
    (if fr < 10 then "0" ++ toString fr else toString fr)

/-! ## Sheet loading: `pd.read_excel(..., header=None)` + `dropna(axis=1, how='all')` -/

/-- Width of the rectangular DataFrame built from the raw rows. -/
def sheetWidth (s : List (List Cell)) : ℕ :=
  s.foldr (fun r a => max r.length a) 0

/-- Pad a row to the DataFrame width with `NaN`. -/
def padRow (w : ℕ) (r : List Cell) : List Cell :=
  r ++ List.replicate (w - r.length) Cell.absent

/-- `pd.read_excel(..., header=None)`: a rectangular grid, short rows padded
with `NaN`. -/
def rectangular (s : List (List Cell)) : List (List Cell) :=
  s.map (padRow (sheetWidth s))

/-- Indices of the columns kept by `df.dropna(axis=1, how='all')`: those with
at least one non-absent cell. -/
def keptCols (s : List (List Cell)) : List ℕ :=
  (List.range (sheetWidth s)).filter (fun j => s.any (fun r => !(r.getD j Cell.absent).isAbsent))

/-- `df.dropna(axis=1, how='all')` on a rectangular grid. -/
def dropEmptyCols (s : List (List Cell)) : List (List Cell) :=
  s.map (fun r => (keptCols s).map (fun j => r.getD j Cell.absent))

/-- The DataFrame each extractor starts from: read the sheet, drop all-empty
columns. -/
def prepSheet (s : List (List Cell)) : List (List Cell) :=
  dropEmptyCols (rectangular s)

/-! ## Row predicates and the header search of `extract_co_mapping` -/

/-- `[str(x).strip() for x in row if pd.notna(x)]`. -/
def nonEmptyVals (r : List Cell) : List String :=
  (r.filter (fun c => !c.isAbsent)).map (fun c => (cellStr c).pyStrip)

/-- The CO↔PO/PSO header-row test of `extract_co_mapping` (app.py lines
36–37): at least two non-absent cells, the first equal (after `upper()`) to
`"CO"` or `pfx ++ "1"`, the second starting (after `upper()`) with `pfx`. -/
def headerPredicate (pfx : String) (r : List Cell) : Bool :=
  let vals := nonEmptyVals r
  decide (2 ≤ vals.length) &&
    ((vals.getD 0 "").pyUpper == "CO" || (vals.getD 0 "").pyUpper == pfx ++ "1") &&
    (vals.getD 1 "").pyUpper.pyStartsWith pfx

/-- Index of the first row satisfying `p` (the `for i, row in df.iterrows()`
… `break` pattern). -/
def findFirstIdx {α : Type} (p : α → Bool) : List α → Option ℕ
  | [] => none
  | r :: rs => if p r then some 0 else (findFirstIdx p rs).map (· + 1)

/-- First index `≥ k` whose row satisfies `p` (the `for i in range(k, len(df))`
… `break` pattern). -/
def findIdxFrom (l : List (List Cell)) (k : ℕ) (p : List Cell → Bool) : Option ℕ :=
  (findFirstIdx p (l.drop k)).map (fun j => k + j)

/-- Stop-marker row of `extract_co_mapping` (line 53): some non-absent cell
whose trimmed, lowercased text is exactly `"po attainment"`. -/
def isStopRow (r : List Cell) : Bool :=
  r.any (fun c => !c.isAbsent && ((cellStr c).pyStrip.pyLower == "po attainment"))

/-- The data region of `extract_co_mapping` (lines 50–61): rows from
`hi + 1` up to (excluding) the first stop row, or to the end of the sheet
when none exists.  The `si = 0` branch models Python's falsy test
`if stop_idx:` (line 58); it is unreachable since `si ≥ hi + 1 ≥ 1`. -/
def dataRegion (df : List (List Cell)) (hi : ℕ) : List (List Cell) :=
  match findIdxFrom df (hi + 1) isStopRow with
  | some si => if si = 0 then df.drop (hi + 1) else (df.drop (hi + 1)).take (si - (hi + 1))
  | none => df.drop (hi + 1)

/-- `data.iloc[:, 0].astype(str).str.lower().str.startswith("overall co
attainment")` (line 64) — note: no `strip()` in the source. -/
def ocaRow (r : List Cell) : Bool :=
  ((cellStr (r.headD Cell.absent)).pyLower).pyStartsWith "overall co attainment"

/-- `dropna(how="all")` row test. -/
def allAbsentRow (r : List Cell) : Bool := r.all Cell.isAbsent

/-- `fillna("-")` on one cell. -/
def fillDash (c : Cell) : Cell := if c.isAbsent then Cell.str "-" else c

/-- `pd.to_numeric(·, errors='coerce')` on one cell. -/
def toNumeric : Cell → Option ℚ
  | .intv n => some ((n : ℚ))
  | .num q => some q
  | .str s => parseRat s
  | .absent => none

/-- `pd.to_numeric(col, errors='coerce').round(2).fillna("-")` on one cell
(lines 71–72). -/
def coerceCell (c : Cell) : Cell :=
  match toNumeric c with
  | some q => Cell.num (round2 q)
  | none => Cell.str "-"

/-- Apply the numeric coercion to every column but the first (the
`for col in data.columns[1:]` loop). -/
def coerceRow : List Cell → List Cell
  | [] => []
  | c :: rest => c :: rest.map coerceCell

/-- The normalized header of `extract_co_mapping` (lines 45–47): trim every
cell's string form; rename a leading `pfx ++ "1"` anchor to `"CO"`. -/
def normalizeHeader (pfx : String) (raw : List Cell) : List String :=
  let header := raw.map (fun c => (cellStr c).pyStrip)
  if (header.headD "").pyUpper == pfx ++ "1" then header.set 0 "CO" else header

/-- The extraction result (`{"heading": ..., "data": DataFrame}` with the
DataFrame's column labels and rows made explicit). -/
structure ExtractedTable where
  heading : String
  columns : List String
  rows : List (List Cell)
  deriving Repr, DecidableEq

deriving instance DecidableEq for Except

/-- The `ValueError` message of `extract_co_mapping` (line 42). -/
def coErrMsg (pfx sheet_name : String) : String :=
  "Could not locate CO‑" ++ pfx ++ " header in '" ++ sheet_name ++ "' sheet."

/-- The `ValueError` message of `extract_co_pso_mapping` (line 94). -/
def psoErrMsg : String := "Could not locate CO‑PSO header in 'PSO Attainment' sheet."

/-- The message of the `TypeError` raised by `pd.to_numeric` when handed a
DataFrame rather than a Series. -/
def typeErrMsg : String := "arg must be a list, tuple, 1-d array, or Series"

/-- Whether the rounding loop `for col in data.columns[1:]: data[col] =
pd.to_numeric(data[col], ...)` (lines 71–72 / 111–112) raises: pandas
selects columns by LABEL, so the first iterated label that occurs more than
once among the header labels makes `data[col]` a DataFrame and
`pd.to_numeric` raise `TypeError` — even when the data region has zero
rows.  With pairwise-distinct labels every selection is a single Series
and the loop is the positional `coerceRow`. -/
def dupLabelInTail (header : List String) : Bool :=
  (header.drop 1).any (fun c => 1 < header.count c)

/-- `extract_co_mapping(xls, sheet_name, prefix)` (app.py lines 25–74).
The grid of the named sheet is passed directly; a raised exception is
`Except.error` carrying the exception's message string (the `ValueError`
of line 42, or the `TypeError` of the label-based rounding loop when the
header has a duplicated non-first label). -/
def extract_co_mapping (sheet : List (List Cell)) (sheet_name pfx : String) :
    Except String ExtractedTable :=
  let df := prepSheet sheet
  match findFirstIdx (headerPredicate pfx) df with
  | none => Except.error (coErrMsg pfx sheet_name)
  | some hi =>
      let header := normalizeHeader pfx (df.getD hi [])
      if dupLabelInTail header then Except.error typeErrMsg
      else
        let kept := ((dataRegion df hi).filter (fun r => !ocaRow r)).filter
          (fun r => !allAbsentRow r)
        let rows := kept.map (fun r => coerceRow ((r.take header.length).map fillDash))
        Except.ok { heading := "Mapping of CO with " ++ pfx ++ "s:"
                    columns := header
                    rows := rows }

/-! ## `extract_co_pso_mapping` (lines 77–114) -/

/-- Header-row test of `extract_co_pso_mapping` (lines 87–88): at least two
non-absent cells, the first starting (lowercased) with `"course outcomes"`,
and some later one containing `"ps"` (lowercased). -/
def psoHeaderPredicate (r : List Cell) : Bool :=
  let vals := nonEmptyVals r
  decide (2 ≤ vals.length) && (vals.getD 0 "").pyLower.pyStartsWith "course outcomes" &&
    (vals.drop 1).any (fun x => strContains x.pyLower "ps")

/-- `data.iloc[:, 0].astype(str).str.strip().str.lower().eq("course")`
(line 103). -/
def courseRow (r : List Cell) : Bool :=
  (cellStr (r.headD Cell.absent)).pyStrip.pyLower == "course"

/-- The normalized header of `extract_co_pso_mapping` (lines 96–97): trim
every cell's string form; force the first label to `"Course Outcomes"`. -/
def psoHeader (df : List (List Cell)) (hi : ℕ) : List String :=
  ((df.getD hi []).map (fun c => (cellStr c).pyStrip)).set 0 "Course Outcomes"

/-- `extract_co_pso_mapping(xls, sheet_name="PSO Attainment")` (lines
77–114).  No stop marker: the region runs to the end of the sheet.  The
label-based rounding loop of lines 111–112 raises `TypeError` on a
duplicated non-first header label, exactly as in `extract_co_mapping`. -/
def extract_co_pso_mapping (sheet : List (List Cell)) : Except String ExtractedTable :=
  let df := prepSheet sheet
  match findFirstIdx psoHeaderPredicate df with
  | none => Except.error psoErrMsg
  | some hi =>
      let header := psoHeader df hi
      if dupLabelInTail header then Except.error typeErrMsg
      else
        let kept := ((df.drop (hi + 1)).filter (fun r => !courseRow r)).filter
          (fun r => !allAbsentRow r)
        let rows := kept.map (fun r => coerceRow ((r.take header.length).map fillDash))
        Except.ok { heading := "Mapping of COs with PSOs:"
                    columns := header
                    rows := rows }

/-! ## `extract_po_attainment` (lines 116–153) -/

/-- Marker-row test of `extract_po_attainment` (line 123): some non-absent
cell with trimmed, lowercased text `"po attainment"` (same as `isStopRow`). -/
def paMarkerRow (r : List Cell) : Bool := isStopRow r

/-- Header-row test of `extract_po_attainment` (lines 131–134), on
`row.astype(str).str.strip()`: skip rows starting with `"co program"`;
otherwise first cell equal (uppercased) to `"CO"` and some later cell
starting (uppercased) with `"PO"`. -/
def poAttHeaderRow (r : List Cell) : Bool :=
  let rowS := r.map (fun c => (cellStr c).pyStrip)
  !r.isEmpty && !(rowS.getD 0 "").pyLower.pyStartsWith "co program" &&
    (rowS.getD 0 "").pyUpper == "CO" && (rowS.drop 1).any (fun s => s.pyUpper.pyStartsWith "PO")

/-- The rounding of a data-row value in `extract_po_attainment` (lines
145–150): `round(float(val), 2)` when that succeeds, else the raw value.
After `fillna("-")` an absent cell has become the unparsable string `"-"`. -/
def cellRound2 : Cell → Cell
  | .intv n => Cell.num ((n : ℚ))
  | .num q => Cell.num (round2 q)
  | .str s => match parseRat s with
      | some q => Cell.num (round2 q)
      | none => Cell.str s
  | .absent => Cell.absent

/-- The single-row PO-attainment table: its column labels are raw cell
values (`df.iloc[header_idx].dropna().tolist()`), not strings. -/
structure PoTable where
  heading : String
  columns : List Cell
  rows : List (List Cell)
  deriving Repr, DecidableEq

/-- `extract_po_attainment(xls, sheet_name)` (lines 116–153).
`Except.ok none` models `return None`; `Except.error ()` models the
`IndexError` of `df.iloc[header_idx + 1]` when the header row is the last
row of the sheet. -/
def extract_po_attainment (sheet : List (List Cell)) : Except Unit (Option PoTable) :=
  let df := prepSheet sheet
  match findFirstIdx paMarkerRow df with
  | none => Except.ok none
  | some pa =>
      match findIdxFrom df (pa + 1) poAttHeaderRow with
      | none => Except.ok none
      | some hi =>
          if hi + 1 < df.length then
            let header := (df.getD hi []).filter (fun c => !c.isAbsent)
            let dataRow := (df.getD (hi + 1) []).map fillDash
            let rounded := (dataRow.take header.length).map cellRound2
            Except.ok (some { heading := "PO Attainment Table:"
                              columns := header
                              rows := [rounded] })
          else Except.error ()

/-! ## `extract_po_evaluation_table` (lines 155–181) -/

/-- Marker-row test of `extract_po_evaluation_table` (lines 160–161): some
cell whose trimmed string form contains `"PO Attainment"` (case-sensitive).
pandas cells are never `None`, so the `else ""` branch of the source's
comprehension is dead and an absent cell renders as `"nan"`. -/
def peMarkerRow (r : List Cell) : Bool :=
  r.any (fun c => strContains ((cellStr c).pyStrip) "PO Attainment")

/-- The header taken at marker row + 3 (line 166): trimmed string forms of
the non-absent, non-blank cells from column index 4 on. -/
def evalHeader (df : List (List Cell)) (i : ℕ) : List String :=
  ((df.getD (i + 3) []).drop 4).filterMap
    (fun c => if !c.isAbsent && !((cellStr c).pyStrip == "") then some ((cellStr c).pyStrip) else none)

/-- One data cell of the evaluation row (lines 168–175): `"-"` when absent,
else the trimmed string, reformatted `"%.2f"` when it parses as a float. -/
def cellToData : Cell → String
  | .absent => "-"
  | .intv n => formatRat2 ((n : ℚ))
  | .num q => formatRat2 q
  | .str s => match parseRat s.pyStrip with
      | some q => formatRat2 q
      | none => s.pyStrip

/-- The data taken at marker row + 4 (lines 167–175): cells from column
index 4, truncated to the header's length, each through `cellToData`. -/
def evalData (df : List (List Cell)) (i : ℕ) (n : ℕ) : List String :=
  (((df.getD (i + 4) []).drop 4).take n).map cellToData

/-- The scanning loop of `extract_po_evaluation_table`: a marker row with
`i + 4 < len(df)` and a nonempty header (hence nonempty data) returns;
otherwise the scan continues with the next row. -/
def po_eval_go (df : List (List Cell)) : ℕ → List (List Cell) →
    Option (List String × List String)
  | _, [] => none
  | i, r :: rs =>
      if peMarkerRow r then
        if i + 4 < df.length then
          let hdr := evalHeader df i
          let dat := evalData df i hdr.length
          if 0 < hdr.length && 0 < dat.length then some (hdr, dat)
          else po_eval_go df (i + 1) rs
        else po_eval_go df (i + 1) rs
      else po_eval_go df (i + 1) rs

/-- `extract_po_evaluation_table(xls)` (lines 155–181), reading the
`"CO Attainment"` sheet.  This function does not drop all-empty columns. -/
def extract_po_evaluation_table (sheet : List (List Cell)) :
    Option (List String × List String) :=
  let df := rectangular sheet
  po_eval_go df 0 df

/-! ## Summary-value scans (`extract_target_value`, lines 592–605, and the
inlined attainment scans of `create_word_report`, lines 752–760, 777–785,
822–829) -/

/-- Marker-row test of `extract_target_value` (line 598): some cell whose
blank-for-`None` string form, lowercased, contains the label — a
case-insensitive match. -/
def tvMarkerRow (r : List Cell) : Bool :=
  r.any (fun c => strContains (cellStrBlank c).pyLower "number of students scoring >=")

/-- `extract_target_value(wb)` (lines 592–605): scan rows top-to-bottom;
on a marker row return the first numeric cell, formatted `str(int(v))` for
an integer and `"%.2f"` for a float; a marker row without a numeric cell
does not stop the scan; `"-"` when nothing is found. -/
def extract_target_value : List (List Cell) → String
  | [] => "-"
  | r :: rs =>
      if tvMarkerRow r then
        match r.find? Cell.isNumber with
        | some (Cell.intv n) => toString n
        | some (Cell.num q) => formatRat2 q
        | _ => extract_target_value rs
      else extract_target_value rs

/-- Marker-row test of the attainment scans (lines 755, 780, 824): the row
is nonempty (Python truthiness of the tuple) and some cell's `str(...)`
contains `label` — a case-sensitive match. -/
def attMarkerRow (label : String) (r : List Cell) : Bool :=
  !r.isEmpty && r.any (fun c => strContains (cellStrNone c) label)

/-- The attainment-level scan pattern of `create_word_report` (identical at
lines 752–760 with label `"Attainment Level"`, 777–785 with
`"Target Level"`, 822–829 with `"Final attainment level"`): stop at the
first marker row, walk its cells in reverse, keep the first numeric one;
`none` when the marker row has no numeric cell or no marker row exists. -/
def scan_attainment (label : String) : List (List Cell) → Option Cell
  | [] => none
  | r :: rs =>
      if attMarkerRow label r then r.reverse.find? Cell.isNumber
      else scan_attainment label rs

/-! ## Specification-side definitions (used to compare the code against the
claims' wording) -/

/-- A table value as the invariant claims describe it: the sentinel `"-"` or
a number with exactly 2 decimal places (an integer number of hundredths). -/
def roundedOrDash (c : Cell) : Prop :=
  c = Cell.str "-" ∨ ∃ m : ℤ, c = Cell.num (mkRat m 100)

/-- Case-insensitive string equality, as the header-row claim words it. -/
def specEqCI (a b : String) : Bool := a.pyUpper == b.pyUpper

/-- Case-insensitive `startsWith`, as the header-row claim words it. -/
def specStartsCI (a p : String) : Bool := a.pyUpper.pyStartsWith p.pyUpper

/-- The header-row predicate exactly as the claim states it: the first
non-empty trimmed cell equals, case-insensitively, `"CO"` or `pfx ++ "1"`,
and the second starts, case-insensitively, with `pfx`. -/
def claimHeaderPredicate (pfx : String) (r : List Cell) : Bool :=
  let vals := nonEmptyVals r
  decide (2 ≤ vals.length) &&
    (specEqCI (vals.getD 0 "") "CO" || specEqCI (vals.getD 0 "") (pfx ++ "1")) &&
    specStartsCI (vals.getD 1 "") pfx

/-- The claim-side row filter for `extract_co_mapping`: drop a row whose
first cell, lowercased and with no trimming (the amendment), starts with
`"overall co attainment"`, or which is entirely empty. -/
def keepRowCo (r : List Cell) : Bool := !ocaRow r && !allAbsentRow r

/-- The claim-side row filter for `extract_co_pso_mapping`: drop a row whose
first trimmed cell equals `"course"` case-insensitively, or which is
entirely empty. -/
def keepRowPso (r : List Cell) : Bool := !courseRow r && !allAbsentRow r

/-! ## Concrete example sheets for witnesses and counterexamples -/

/-- A sheet on which both mapping extractors succeed: a CO↔PO header at row
0 and a CO↔PSO header at row 2. -/
def exSheetBoth : List (List Cell) :=
  [[Cell.str "CO", Cell.str "PO1"],
   [Cell.str "CO1", Cell.num (mkRat 157 50)],
   [Cell.str "Course Outcomes", Cell.str "PSO1"],
   [Cell.str "CO2", Cell.intv 3]]

/-- A sheet whose header row exists but whose whole data region is filtered
out (an all-empty row, then the stop marker). -/
def exSheetEmptyRegion : List (List Cell) :=
  [[Cell.str "CO", Cell.str "PO1"],
   [Cell.absent, Cell.absent],
   [Cell.str "po attainment", Cell.absent]]

/-- The scenario of the C3 claim: marker row 10, header row 13, data row
14, payload starting at column index 4. -/
def exSheetC3 : List (List Cell) :=
  (List.replicate 10 [Cell.str "r"]) ++
  [[Cell.str "contains PO Attainment marker"],
   [Cell.str "r"], [Cell.str "r"],
   [Cell.str "CO", Cell.str "", Cell.str "", Cell.str "", Cell.str "PO1", Cell.str "PO2"],
   [Cell.str "CO1", Cell.str "", Cell.str "", Cell.str "", Cell.num 75, Cell.num 80]]

/-- Counterexample sheet for C3: the marker sits at row 0 with `0 + 4` in
range, but row 3 has no cell at column index ≥ 4, so the derived header is
empty. -/
def exSheetC3empty : List (List Cell) :=
  [[Cell.str "PO Attainment"], [Cell.str "a"], [Cell.str "b"], [Cell.str "c"], [Cell.str "d"]]

/-- Counterexample sheet for C4: the CO/PO header row exists (the start
predicate holds at row 0) but the label `"PO1"` is duplicated, so the
label-based rounding loop raises `TypeError` instead of returning. -/
def exSheetDup : List (List Cell) :=
  [[Cell.str "CO", Cell.str "PO1", Cell.str "PO1"],
   [Cell.str "CO1", Cell.intv 2, Cell.intv 3]]

/-- Counterexample sheet for C8: a duplicated header label with an entirely
empty data region — the rounding loop still raises on the 0-row
duplicate-label selection. -/
def exSheetC8dup : List (List Cell) :=
  [[Cell.str "CO", Cell.str "PO1", Cell.str "PO1"]]

/-- Counterexample sheet for C5: with the lowercase prefix `"po"` the first
row satisfies the claimed case-insensitive header predicate, yet the code's
`upper()`-based comparison never matches. -/
def exSheetC5 : List (List Cell) :=
  [[Cell.str "PO1", Cell.str "PO3"]]

/-- Counterexample sheet for C6: the first cell of the lone data row starts
with `"overall co attainment"` only after trimming. -/
def exSheetC6 : List (List Cell) :=
  [[Cell.str "CO", Cell.str "PO1"],
   [Cell.str " Overall CO Attainment : 2.8", Cell.intv 1]]

/-- Counterexample sheet for C7: the target-value marker row holds the
numbers 1 and 2; a forward scan returns 1, the claimed reverse scan 2. -/
def exSheetC7 : List (List Cell) :=
  [[Cell.str "Number of students scoring >= Target Value", Cell.intv 1, Cell.intv 2]]

/-- Second counterexample sheet for C7: the label appears only in a
different letter case, which the claimed case-sensitive match would
reject. -/
def exSheetC7b : List (List Cell) :=
  [[Cell.str "NUMBER OF STUDENTS SCORING >= TARGET VALUE", Cell.intv 5]]

/-- Counterexample sheet for C10: marker and header rows exist but the
header row is the last row, so the data-row lookup is out of range. -/
def exSheetC10 : List (List Cell) :=
  [[Cell.str "po attainment"], [Cell.str "CO", Cell.str "PO1"]]

/-- Witness sheet for C10's amended claim: a data row follows the header. -/
def exSheetC10b : List (List Cell) :=
  [[Cell.str "po attainment"], [Cell.str "CO", Cell.str "PO1"], [Cell.str "c", Cell.num 2]]

/-- The table extracted from `exSheetBoth` by `extract_co_mapping`. -/
def exTableC1po : ExtractedTable :=
  { heading := "Mapping of CO with POs:"
    columns := ["CO", "PO1"]
    rows := [[Cell.str "CO1", Cell.num (mkRat 157 50)],
             [Cell.str "Course Outcomes", Cell.str "-"],
             [Cell.str "CO2", Cell.num 3]] }

/-- The table extracted from `exSheetBoth` by `extract_co_pso_mapping`. -/
def exTableC1pso : ExtractedTable :=
  { heading := "Mapping of COs with PSOs:"
    columns := ["Course Outcomes", "PSO1"]
    rows := [[Cell.str "CO2", Cell.num 3]] }

/-! ## Helper lemmas -/

lemma findFirstIdx_eq_none_iff {α : Type} (p : α → Bool) (l : List α) :
    findFirstIdx p l = none ↔ ∀ x ∈ l, p x = false := by
  induction l with
  | nil => simp [findFirstIdx]
  | cons a l ih =>
    by_cases h : p a
    · simp [findFirstIdx, h]
    · simp [findFirstIdx, h, Option.map_eq_none', ih]

lemma findFirstIdx_lt_length {α : Type} {p : α → Bool} {l : List α} {k : ℕ}
    (h : findFirstIdx p l = some k) : k < l.length := by
  induction l generalizing k with
  | nil => simp [findFirstIdx] at h
  | cons a l ih =>
    simp only [List.length_cons]
    by_cases hp : p a
    · simp [findFirstIdx, hp] at h
      omega
    · simp only [findFirstIdx, hp, Bool.false_eq_true, ite_false] at h
      cases hf : findFirstIdx p l with
      | none => rw [hf] at h; simp at h
      | some j =>
        rw [hf] at h
        simp only [Option.map_some', Option.some.injEq] at h
        have := ih hf
        omega

lemma findFirstIdx_congr {α : Type} {p q : α → Bool} (l : List α)
    (h : ∀ x ∈ l, p x = q x) : findFirstIdx p l = findFirstIdx q l := by
  induction l with
  | nil => rfl
  | cons a l ih =>
    simp only [findFirstIdx]
    rw [h a (by simp), ih (fun x hx => h x (by simp [hx]))]

lemma takeWhile_eq_self_of_findFirstIdx_none {α : Type} {p : α → Bool} {l : List α}
    (h : findFirstIdx p l = none) : l.takeWhile (fun a => !p a) = l := by
  induction l with
  | nil => rfl
  | cons a l ih =>
    by_cases hp : p a
    · simp [findFirstIdx, hp] at h
    · simp only [findFirstIdx, hp, Bool.false_eq_true, ite_false,
        Option.map_eq_none'] at h
      simp [List.takeWhile_cons, hp, ih h]

lemma takeWhile_eq_take_of_findFirstIdx_some {α : Type} {p : α → Bool} {l : List α} {j : ℕ}
    (h : findFirstIdx p l = some j) : l.takeWhile (fun a => !p a) = l.take j := by
  induction l generalizing j with
  | nil => simp [findFirstIdx] at h
  | cons a l ih =>
    by_cases hp : p a
    · simp only [findFirstIdx, hp, ite_true, Option.some.injEq] at h
      subst h
      simp [List.takeWhile_cons, hp]
    · simp only [findFirstIdx, hp, Bool.false_eq_true, ite_false] at h
      cases hf : findFirstIdx p l with
      | none => rw [hf] at h; simp at h
      | some j' =>
        rw [hf] at h
        simp only [Option.map_some', Option.some.injEq] at h
        subst h
        simp [List.takeWhile_cons, hp, ih hf]

lemma dataRegion_eq_match (df : List (List Cell)) (hi : ℕ) :
    dataRegion df hi =
      (match findFirstIdx isStopRow (df.drop (hi + 1)) with
       | some j => (df.drop (hi + 1)).take j
       | none => df.drop (hi + 1)) := by
  unfold dataRegion findIdxFrom
  cases hf : findFirstIdx isStopRow (df.drop (hi + 1)) with
  | none => simp
  | some j =>
    simp only [Option.map_some']
    have hne : ¬(hi + 1 + j = 0) := by omega
    rw [if_neg hne]
    have harith : hi + 1 + j - (hi + 1) = j := by omega
    rw [harith]

lemma strContains_of_infix (pat s : String) (h : List.IsInfix pat.toList s.toList) :
    strContains s pat = true := by
  obtain ⟨a, b, hab⟩ := h
  unfold strContains
  rw [List.any_eq_true]
  refine ⟨a.length, ?_, ?_⟩
  · rw [List.mem_range]
    have : a.length ≤ s.toList.length := by
      rw [← hab]
      simp
    omega
  · rw [List.isPrefixOf_iff_prefix, ← hab, List.append_assoc, List.drop_left]
    exact List.prefix_append _ _

lemma pyUpper_append (a b : String) : (a ++ b).pyUpper = a.pyUpper ++ b.pyUpper := by
  apply String.ext
  simp [String.pyUpper, String.data_append]

lemma getD_map_of_lt {α β : Type} (f : α → β) (l : List α) (j : ℕ) (hj : j < l.length)
    (d : β) (d' : α) : (l.map f).getD j d = f (l.getD j d') := by
  rw [List.getD_eq_getElem?_getD, List.getD_eq_getElem?_getD, List.getElem?_map,
    List.getElem?_eq_getElem hj]
  simp

lemma getD_mem_of_lt {α : Type} (l : List α) (k : ℕ) (d : α) (h : k < l.length) :
    l.getD k d ∈ l := by
  rw [List.getD_eq_getElem?_getD, List.getElem?_eq_getElem h]
  exact List.getElem_mem h

lemma prepSheet_row_length {s : List (List Cell)} {r : List Cell} (h : r ∈ prepSheet s) :
    r.length = (keptCols (rectangular s)).length := by
  unfold prepSheet dropEmptyCols at h
  obtain ⟨r0, _, rfl⟩ := List.mem_map.1 h
  simp

lemma coerceRow_length (l : List Cell) : (coerceRow l).length = l.length := by
  cases l <;> simp [coerceRow]

lemma normalizeHeader_length (pfx : String) (raw : List Cell) :
    (normalizeHeader pfx raw).length = raw.length := by
  simp only [normalizeHeader]
  split <;> simp

lemma roundedOrDash_coerceCell (c : Cell) : roundedOrDash (coerceCell c) := by
  unfold coerceCell
  cases h : toNumeric c with
  | none => exact Or.inl rfl
  | some q => exact Or.inr ⟨roundHalfEven (100 * q.num) q.den, rfl⟩

lemma dataRegion_subset (df : List (List Cell)) (hi : ℕ) : dataRegion df hi ⊆ df := by
  rw [dataRegion_eq_match]
  cases hf : findFirstIdx isStopRow (df.drop (hi + 1)) with
  | none => exact List.drop_subset _ _
  | some j =>
    intro x hx
    exact List.drop_subset _ _ (List.take_subset _ _ hx)

lemma coErrMsg_head (pfx name : String) : (coErrMsg pfx name).data.head? = some 'C' := by
  unfold coErrMsg
  simp only [String.data_append, List.head?_append]
  rw [show ("Could not locate CO‑" : String).data.head? = some 'C' from rfl]
  simp [Option.or]

lemma typeErr_ne_coErr (pfx name : String) : typeErrMsg ≠ coErrMsg pfx name := by
  intro h
  have h1 := coErrMsg_head pfx name
  rw [← h] at h1
  exact absurd h1 (by decide)

lemma msg_contains_name (pfx name : String) :
    strContains (coErrMsg pfx name) name = true := by
  unfold coErrMsg
  apply strContains_of_infix
  refine ⟨("Could not locate CO‑" ++ pfx ++ " header in '").toList, "' sheet.".toList, ?_⟩
  simp [String.toList, String.data_append, List.append_assoc]

/-! ## Claim theorems -/

/-- C2: for every sheet in which `extract_co_mapping` finds a header row at
index `hi`, the extracted data region consists of the rows strictly between
the header row and the first subsequent stop row (a row with a cell whose
trimmed, lowercased text is `"po attainment"`), that stop row excluded; and
when no stop row exists after the header the region extends to the end of
the sheet. -/
theorem C2_data_region_boundaries (df : List (List Cell)) (hi : ℕ) :
    dataRegion df hi = (df.drop (hi + 1)).takeWhile (fun r => !isStopRow r) ∧
    ((∀ r ∈ df.drop (hi + 1), isStopRow r = false) →
      dataRegion df hi = df.drop (hi + 1)) := by
  constructor
  · rw [dataRegion_eq_match]
    cases hf : findFirstIdx isStopRow (df.drop (hi + 1)) with
    | none => exact (takeWhile_eq_self_of_findFirstIdx_none hf).symm
    | some j => exact (takeWhile_eq_take_of_findFirstIdx_some hf).symm
  · intro h
    rw [dataRegion_eq_match, (findFirstIdx_eq_none_iff _ _).2 h]

/-- Witness for C2 at a concrete sheet without a stop row. -/
theorem C2_data_region_boundaries_witness :
    dataRegion (prepSheet exSheetBoth) 0 =
      ((prepSheet exSheetBoth).drop 1).takeWhile (fun r => !isStopRow r) ∧
    dataRegion (prepSheet exSheetBoth) 0 = (prepSheet exSheetBoth).drop 1 :=
  ⟨(C2_data_region_boundaries (prepSheet exSheetBoth) 0).1,
   (C2_data_region_boundaries (prepSheet exSheetBoth) 0).2 (by decide)⟩

/-- C4, counterexample: the start predicate holds at row 0 of `exSheetDup`
(so the claim asserts a normal return), yet `extract_co_mapping` fails —
the duplicated `"PO1"` label makes `data[col]` a DataFrame and
`pd.to_numeric` raise `TypeError`, whose message does not name the sheet. -/
theorem C4_counterexample :
    headerPredicate "PO" ((prepSheet exSheetDup).getD 0 []) = true ∧
    (prepSheet exSheetDup).getD 0 [] ∈ prepSheet exSheetDup ∧
    extract_co_mapping exSheetDup "CO Attainment" "PO" = Except.error typeErrMsg ∧
    strContains typeErrMsg "CO Attainment" = false := by
  refine ⟨by decide, by decide, by decide, by decide⟩

/-- C4, amended: both extractors fail with the header-not-found error
naming the sheet exactly when no row satisfies their start predicate; when
a row does satisfy it they return normally *unless* some non-first header
label is duplicated, in which case the label-based rounding loop raises a
`TypeError` (not naming the sheet) instead. -/
theorem C4_start_predicate_amended (sheet : List (List Cell)) (name pfx : String) :
    (extract_co_mapping sheet name pfx = Except.error (coErrMsg pfx name) ↔
      ∀ r ∈ prepSheet sheet, headerPredicate pfx r = false) ∧
    strContains (coErrMsg pfx name) name = true ∧
    (∀ hi, findFirstIdx (headerPredicate pfx) (prepSheet sheet) = some hi →
      (dupLabelInTail (normalizeHeader pfx ((prepSheet sheet).getD hi [])) = false →
        ∃ t, extract_co_mapping sheet name pfx = Except.ok t) ∧
      (dupLabelInTail (normalizeHeader pfx ((prepSheet sheet).getD hi [])) = true →
        extract_co_mapping sheet name pfx = Except.error typeErrMsg)) ∧
    (extract_co_pso_mapping sheet = Except.error psoErrMsg ↔
      ∀ r ∈ prepSheet sheet, psoHeaderPredicate r = false) ∧
    strContains psoErrMsg "PSO Attainment" = true ∧
    (∀ hi, findFirstIdx psoHeaderPredicate (prepSheet sheet) = some hi →
      (dupLabelInTail (psoHeader (prepSheet sheet) hi) = false →
        ∃ t, extract_co_pso_mapping sheet = Except.ok t) ∧
      (dupLabelInTail (psoHeader (prepSheet sheet) hi) = true →
        extract_co_pso_mapping sheet = Except.error typeErrMsg)) := by
  refine ⟨⟨?_, ?_⟩, msg_contains_name pfx name, ?_, ⟨?_, ?_⟩, by decide, ?_⟩
  · intro h
    cases hf : findFirstIdx (headerPredicate pfx) (prepSheet sheet) with
    | none => exact (findFirstIdx_eq_none_iff _ _).1 hf
    | some hi =>
      exfalso
      simp only [extract_co_mapping, hf] at h
      by_cases hdup : dupLabelInTail (normalizeHeader pfx ((prepSheet sheet).getD hi [])) = true
      · rw [if_pos hdup] at h
        have h2 : typeErrMsg = coErrMsg pfx name := by injection h
        exact typeErr_ne_coErr pfx name h2
      · rw [if_neg hdup] at h
        simp at h
  · intro h
    simp only [extract_co_mapping, (findFirstIdx_eq_none_iff _ _).2 h]
  · intro hi hf
    constructor
    · intro hdup
      simp only [extract_co_mapping, hf]
      rw [if_neg (by rw [hdup]; exact Bool.false_ne_true)]
      exact ⟨_, rfl⟩
    · intro hdup
      simp only [extract_co_mapping, hf]
      rw [if_pos hdup]
  · intro h
    cases hf : findFirstIdx psoHeaderPredicate (prepSheet sheet) with
    | none => exact (findFirstIdx_eq_none_iff _ _).1 hf
    | some hi =>
      exfalso
      simp only [extract_co_pso_mapping, hf] at h
      by_cases hdup : dupLabelInTail (psoHeader (prepSheet sheet) hi) = true
      · rw [if_pos hdup] at h
        have h2 : typeErrMsg = psoErrMsg := by injection h
        exact absurd h2 (by decide)
      · rw [if_neg hdup] at h
        simp at h
  · intro h
    simp only [extract_co_pso_mapping, (findFirstIdx_eq_none_iff _ _).2 h]
  · intro hi hf
    constructor
    · intro hdup
      simp only [extract_co_pso_mapping, hf]
      rw [if_neg (by rw [hdup]; exact Bool.false_ne_true)]
      exact ⟨_, rfl⟩
    · intro hdup
      simp only [extract_co_pso_mapping, hf]
      rw [if_pos hdup]

/-- Witness for the amended C4: a distinct-label sheet returns normally on
both extractors; the duplicate-label sheet hits the `TypeError` path. -/
theorem C4_start_predicate_amended_witness :
    (∃ t, extract_co_mapping exSheetBoth "CO Attainment" "PO" = Except.ok t) ∧
    extract_co_mapping exSheetDup "CO Attainment" "PO" = Except.error typeErrMsg ∧
    (∃ t, extract_co_pso_mapping exSheetBoth = Except.ok t) :=
  ⟨((C4_start_predicate_amended exSheetBoth "CO Attainment" "PO").2.2.1 0
      (by decide)).1 (by decide),
   ((C4_start_predicate_amended exSheetDup "CO Attainment" "PO").2.2.1 0
      (by decide)).2 (by decide),
   ((C4_start_predicate_amended exSheetBoth "CO Attainment" "PO").2.2.2.2.2 2
      (by decide)).1 (by decide)⟩

/-- C9: extraction is deterministic — in this embedding both mapping
extractors are pure functions of the sheet's cell contents (the source
reads a fresh DataFrame per call and mutates only call-local frames), so
two runs on the same arguments yield identical tables. -/
theorem C9_deterministic (sheet : List (List Cell)) (name pfx : String) :
    extract_co_mapping sheet name pfx = extract_co_mapping sheet name pfx ∧
    extract_co_pso_mapping sheet = extract_co_pso_mapping sheet :=
  ⟨rfl, rfl⟩

/-- C5, counterexample: taken literally for every prefix, the claim fails on
the lowercase prefix `"po"`: the first row of this sheet satisfies the
claimed case-insensitive predicate, but `extract_co_mapping` finds no header
at all and fails. -/
theorem C5_counterexample :
    claimHeaderPredicate "po" ((prepSheet exSheetC5).getD 0 []) = true ∧
    findFirstIdx (headerPredicate "po") (prepSheet exSheetC5) = none ∧
    extract_co_mapping exSheetC5 "CO Attainment" "po" =
      Except.error "Could not locate CO‑po header in 'CO Attainment' sheet." := by
  refine ⟨by decide, by decide, by decide⟩

/-- C5, amended: for a prefix that is invariant under uppercasing (as the
call-site prefixes `"PO"` and `"PSO"` are), the header search of
`extract_co_mapping` selects exactly the first row satisfying the claim's
case-insensitive predicate — rows not satisfying it are never chosen — and
on every successful extraction the table's columns are the normalized
header of that first claim-satisfying row. -/
theorem C5_header_row_amended (sheet : List (List Cell)) (pfx : String)
    (h : pfx.pyUpper = pfx) :
    findFirstIdx (headerPredicate pfx) (prepSheet sheet) =
      findFirstIdx (claimHeaderPredicate pfx) (prepSheet sheet) ∧
    ∀ name t, extract_co_mapping sheet name pfx = Except.ok t →
      ∃ hi, findFirstIdx (claimHeaderPredicate pfx) (prepSheet sheet) = some hi ∧
        t.columns = normalizeHeader pfx ((prepSheet sheet).getD hi []) := by
  have hEq : findFirstIdx (headerPredicate pfx) (prepSheet sheet) =
      findFirstIdx (claimHeaderPredicate pfx) (prepSheet sheet) := by
    apply findFirstIdx_congr
    intro r _
    simp only [headerPredicate, claimHeaderPredicate, specEqCI, specStartsCI]
    rw [show ("CO" : String).pyUpper = "CO" from by decide,
      show (pfx ++ "1").pyUpper = pfx ++ "1" from by
        rw [pyUpper_append, h, show ("1" : String).pyUpper = "1" from by decide], h]
  refine ⟨hEq, ?_⟩
  intro name t ht
  simp only [extract_co_mapping] at ht
  cases hf : findFirstIdx (headerPredicate pfx) (prepSheet sheet) with
  | none => rw [hf] at ht; simp at ht
  | some hi =>
    simp only [hf] at ht
    refine ⟨hi, by rw [← hEq]; exact hf, ?_⟩
    by_cases hdup : dupLabelInTail (normalizeHeader pfx ((prepSheet sheet).getD hi [])) = true
    · rw [if_pos hdup] at ht
      simp at ht
    · rw [if_neg hdup] at ht
      simp only [Except.ok.injEq] at ht
      subst ht
      rfl

/-- Witness for the amended C5 at the concrete prefix `"PO"`. -/
theorem C5_header_row_amended_witness :
    ("PO" : String).pyUpper = "PO" ∧
    findFirstIdx (headerPredicate "PO") (prepSheet exSheetBoth) =
      findFirstIdx (claimHeaderPredicate "PO") (prepSheet exSheetBoth) ∧
    (∃ hi, findFirstIdx (claimHeaderPredicate "PO") (prepSheet exSheetBoth) = some hi ∧
      exTableC1po.columns = normalizeHeader "PO" ((prepSheet exSheetBoth).getD hi [])) :=
  ⟨by decide, (C5_header_row_amended exSheetBoth "PO" (by decide)).1,
   (C5_header_row_amended exSheetBoth "PO" (by decide)).2 "CO Attainment" exTableC1po
     (by decide)⟩

lemma kept_co_subset (df : List (List Cell)) (hi : ℕ) :
    ((dataRegion df hi).filter (fun r => !ocaRow r)).filter (fun r => !allAbsentRow r) ⊆
      df := by
  intro x hx
  have h1 := (List.mem_filter.1 hx).1
  have h2 := (List.mem_filter.1 h1).1
  exact dataRegion_subset df hi h2

lemma kept_pso_subset (df : List (List Cell)) (hi : ℕ) :
    ((df.drop (hi + 1)).filter (fun r => !courseRow r)).filter (fun r => !allAbsentRow r) ⊆
      df := by
  intro x hx
  have h1 := (List.mem_filter.1 hx).1
  have h2 := (List.mem_filter.1 h1).1
  exact List.drop_subset _ _ h2

lemma transformed_row_shape {r0 : List Cell} {n j : ℕ}
    (hj1 : 1 ≤ j) (hjlt : j < (coerceRow ((r0.take n).map fillDash)).length) :
    roundedOrDash ((coerceRow ((r0.take n).map fillDash)).getD j Cell.absent) := by
  cases hm : (r0.take n).map fillDash with
  | nil =>
    rw [hm] at hjlt
    simp [coerceRow] at hjlt
  | cons c rest =>
    rw [hm] at hjlt
    obtain ⟨j', rfl⟩ : ∃ j', j = j' + 1 := ⟨j - 1, by omega⟩
    simp only [coerceRow] at hjlt ⊢
    rw [List.getD_cons_succ]
    have hj' : j' < rest.length := by
      simp only [List.length_cons, List.length_map] at hjlt
      omega
    rw [getD_map_of_lt coerceCell rest j' hj' Cell.absent Cell.absent]
    exact roundedOrDash_coerceCell _

/-- C1: every table produced by `extract_co_mapping` or
`extract_co_pso_mapping` has rows of exactly `columns.length` values, every
value outside the first column is a number rounded to 2 decimal places (an
integer count of hundredths) or the sentinel `"-"`; the coercion parses a
cell as a float, rounds to 2 decimals on success and substitutes `"-"`
otherwise (`3.14159 ↦ 3.14`, `"abc" ↦ "-"`). -/
theorem C1_table_invariants (sheet : List (List Cell)) (name pfx : String) :
    (∀ t, extract_co_mapping sheet name pfx = Except.ok t →
      (∀ r ∈ t.rows, r.length = t.columns.length) ∧
      (∀ r ∈ t.rows, ∀ j : ℕ, 1 ≤ j → j < r.length →
        roundedOrDash (r.getD j Cell.absent))) ∧
    (∀ t, extract_co_pso_mapping sheet = Except.ok t →
      (∀ r ∈ t.rows, r.length = t.columns.length) ∧
      (∀ r ∈ t.rows, ∀ j : ℕ, 1 ≤ j → j < r.length →
        roundedOrDash (r.getD j Cell.absent))) ∧
    coerceCell (Cell.num (mkRat 314159 100000)) = Cell.num (mkRat 157 50) ∧
    coerceCell (Cell.str "abc") = Cell.str "-" := by
  refine ⟨?_, ?_, by decide, by decide⟩
  · intro t ht
    simp only [extract_co_mapping] at ht
    cases hf : findFirstIdx (headerPredicate pfx) (prepSheet sheet) with
    | none => rw [hf] at ht; simp at ht
    | some hi =>
      simp only [hf] at ht
      by_cases hdup : dupLabelInTail (normalizeHeader pfx ((prepSheet sheet).getD hi [])) = true
      · rw [if_pos hdup] at ht
        simp at ht
      · rw [if_neg hdup] at ht
        simp only [Except.ok.injEq] at ht
        subst ht
        constructor
        · intro r hr
          obtain ⟨r0, hr0, rfl⟩ := List.mem_map.1 hr
          have hr0df : r0 ∈ prepSheet sheet := kept_co_subset (prepSheet sheet) hi hr0
          have hlen0 := prepSheet_row_length hr0df
          have hhi : hi < (prepSheet sheet).length := findFirstIdx_lt_length hf
          have hlenH :
              (normalizeHeader pfx ((prepSheet sheet).getD hi [])).length =
                (keptCols (rectangular sheet)).length := by
            rw [normalizeHeader_length]
            exact prepSheet_row_length (getD_mem_of_lt _ hi [] hhi)
          rw [coerceRow_length, List.length_map, List.length_take, hlen0, hlenH]
          simp
        · intro r hr j hj1 hjlt
          obtain ⟨r0, hr0, rfl⟩ := List.mem_map.1 hr
          exact transformed_row_shape hj1 hjlt
  · intro t ht
    simp only [extract_co_pso_mapping] at ht
    cases hf : findFirstIdx psoHeaderPredicate (prepSheet sheet) with
    | none => rw [hf] at ht; simp at ht
    | some hi =>
      simp only [hf] at ht
      by_cases hdup : dupLabelInTail (psoHeader (prepSheet sheet) hi) = true
      · rw [if_pos hdup] at ht
        simp at ht
      · rw [if_neg hdup] at ht
        simp only [Except.ok.injEq] at ht
        subst ht
        constructor
        · intro r hr
          obtain ⟨r0, hr0, rfl⟩ := List.mem_map.1 hr
          have hr0df : r0 ∈ prepSheet sheet := kept_pso_subset (prepSheet sheet) hi hr0
          have hlen0 := prepSheet_row_length hr0df
          have hhi : hi < (prepSheet sheet).length := findFirstIdx_lt_length hf
          have hlenH : (psoHeader (prepSheet sheet) hi).length =
              (keptCols (rectangular sheet)).length := by
            unfold psoHeader
            rw [List.length_set, List.length_map]
            exact prepSheet_row_length (getD_mem_of_lt _ hi [] hhi)
          rw [coerceRow_length, List.length_map, List.length_take, hlen0, hlenH]
          simp
        · intro r hr j hj1 hjlt
          obtain ⟨r0, hr0, rfl⟩ := List.mem_map.1 hr
          exact transformed_row_shape hj1 hjlt

/-- Witness for C1 at `exSheetBoth`, where both extractors succeed. -/
theorem C1_table_invariants_witness :
    ((∀ r ∈ exTableC1po.rows, r.length = exTableC1po.columns.length) ∧
      (∀ r ∈ exTableC1po.rows, ∀ j : ℕ, 1 ≤ j → j < r.length →
        roundedOrDash (r.getD j Cell.absent))) ∧
    ((∀ r ∈ exTableC1pso.rows, r.length = exTableC1pso.columns.length) ∧
      (∀ r ∈ exTableC1pso.rows, ∀ j : ℕ, 1 ≤ j → j < r.length →
        roundedOrDash (r.getD j Cell.absent))) :=
  ⟨(C1_table_invariants exSheetBoth "CO Attainment" "PO").1 exTableC1po (by decide),
   (C1_table_invariants exSheetBoth "CO Attainment" "PO").2.1 exTableC1pso (by decide)⟩

lemma filter_not_not {α : Type} (l : List α) (p q : α → Bool) :
    (l.filter (fun r => !p r)).filter (fun r => !q r) =
      l.filter (fun r => !p r && !q r) := by
  induction l with
  | nil => rfl
  | cons a l ih =>
    by_cases hp : p a
    · simp [List.filter_cons, hp, ih]
    · by_cases hq : q a
      · simp [List.filter_cons, hp, hq, ih]
      · simp [List.filter_cons, hp, hq, ih]

/-- C6, counterexample: a data-region row whose first cell starts with
`"overall co attainment"` only *after* trimming is kept by
`extract_co_mapping` (the source lowercases but never strips before its
`startswith` test), while the claim says every such row is dropped. -/
theorem C6_counterexample :
    extract_co_mapping exSheetC6 "CO Attainment" "PO" =
      Except.ok { heading := "Mapping of CO with POs:"
                  columns := ["CO", "PO1"]
                  rows := [[Cell.str " Overall CO Attainment : 2.8", Cell.num 1]] } ∧
    (cellStr (Cell.str " Overall CO Attainment : 2.8")).pyStrip.pyLower.pyStartsWith
      "overall co attainment" = true := by
  refine ⟨by decide, by decide⟩

/-- C6, amended: within the located data region, `extract_co_mapping` drops
exactly the rows whose first cell, lowercased but *not* trimmed, starts
with `"overall co attainment"`, together with the entirely-empty rows;
`extract_co_pso_mapping` drops exactly the rows whose first trimmed cell
equals `"course"` case-insensitively, together with the entirely-empty
rows; all other rows are kept in original top-to-bottom order (a single
order-preserving filter of the region). -/
theorem C6_row_filtering_amended (sheet : List (List Cell)) (name pfx : String) :
    (∀ hi t, findFirstIdx (headerPredicate pfx) (prepSheet sheet) = some hi →
      extract_co_mapping sheet name pfx = Except.ok t →
      t.rows = ((dataRegion (prepSheet sheet) hi).filter keepRowCo).map
        (fun r => coerceRow ((r.take t.columns.length).map fillDash))) ∧
    (∀ hi t, findFirstIdx psoHeaderPredicate (prepSheet sheet) = some hi →
      extract_co_pso_mapping sheet = Except.ok t →
      t.rows = (((prepSheet sheet).drop (hi + 1)).filter keepRowPso).map
        (fun r => coerceRow ((r.take t.columns.length).map fillDash))) := by
  constructor
  · intro hi t hf ht
    simp only [extract_co_mapping, hf] at ht
    by_cases hdup : dupLabelInTail (normalizeHeader pfx ((prepSheet sheet).getD hi [])) = true
    · rw [if_pos hdup] at ht
      simp at ht
    · rw [if_neg hdup] at ht
      simp only [Except.ok.injEq] at ht
      subst ht
      dsimp only
      rw [filter_not_not,
        show keepRowCo = (fun r => !ocaRow r && !allAbsentRow r) from rfl]
  · intro hi t hf ht
    simp only [extract_co_pso_mapping, hf] at ht
    by_cases hdup : dupLabelInTail (psoHeader (prepSheet sheet) hi) = true
    · rw [if_pos hdup] at ht
      simp at ht
    · rw [if_neg hdup] at ht
      simp only [Except.ok.injEq] at ht
      subst ht
      dsimp only
      rw [filter_not_not,
        show keepRowPso = (fun r => !courseRow r && !allAbsentRow r) from rfl]

/-- Witness for the amended C6 at `exSheetBoth`. -/
theorem C6_row_filtering_amended_witness :
    exTableC1po.rows = ((dataRegion (prepSheet exSheetBoth) 0).filter keepRowCo).map
      (fun r => coerceRow ((r.take exTableC1po.columns.length).map fillDash)) ∧
    exTableC1pso.rows = (((prepSheet exSheetBoth).drop (2 + 1)).filter keepRowPso).map
      (fun r => coerceRow ((r.take exTableC1pso.columns.length).map fillDash)) :=
  ⟨(C6_row_filtering_amended exSheetBoth "CO Attainment" "PO").1 0 exTableC1po
      (by decide) (by decide),
   (C6_row_filtering_amended exSheetBoth "PSO Attainment" "PSO").2 2 exTableC1pso
      (by decide) (by decide)⟩

/-- C8, counterexample: the header row of `exSheetC8dup` is located and its
data region is empty after filtering, yet `extract_co_mapping` fails — the
duplicated `"PO1"` label makes `data[col]` a 0-row DataFrame and
`pd.to_numeric` raise `TypeError`, contradicting the claim's "rather than
raising an error". -/
theorem C8_counterexample :
    findFirstIdx (headerPredicate "PO") (prepSheet exSheetC8dup) = some 0 ∧
    ((dataRegion (prepSheet exSheetC8dup) 0).filter (fun r => !ocaRow r)).filter
        (fun r => !allAbsentRow r) = [] ∧
    extract_co_mapping exSheetC8dup "CO Attainment" "PO" = Except.error typeErrMsg := by
  refine ⟨by decide, by decide, by decide⟩

/-- C8, amended: when the header row is located, every row of the data
region is filtered out, and no non-first header label is duplicated,
`extract_co_mapping` returns a table whose rows are empty and whose columns
are the normalized header — not an error.  (With a duplicated label the
label-based rounding loop raises `TypeError` even on the empty region.) -/
theorem C8_empty_region_amended (sheet : List (List Cell)) (name pfx : String) (hi : ℕ)
    (h1 : findFirstIdx (headerPredicate pfx) (prepSheet sheet) = some hi)
    (h2 : ((dataRegion (prepSheet sheet) hi).filter (fun r => !ocaRow r)).filter
        (fun r => !allAbsentRow r) = [])
    (h3 : dupLabelInTail (normalizeHeader pfx ((prepSheet sheet).getD hi [])) = false) :
    extract_co_mapping sheet name pfx =
      Except.ok { heading := "Mapping of CO with " ++ pfx ++ "s:"
                  columns := normalizeHeader pfx ((prepSheet sheet).getD hi [])
                  rows := [] } := by
  simp only [extract_co_mapping, h1]
  rw [if_neg (by rw [h3]; exact Bool.false_ne_true), h2]
  simp

/-- Witness for the amended C8 at a sheet whose data region is one
all-empty row and whose header labels are distinct. -/
theorem C8_empty_region_amended_witness :
    findFirstIdx (headerPredicate "PO") (prepSheet exSheetEmptyRegion) = some 0 ∧
    ((dataRegion (prepSheet exSheetEmptyRegion) 0).filter (fun r => !ocaRow r)).filter
        (fun r => !allAbsentRow r) = [] ∧
    extract_co_mapping exSheetEmptyRegion "PSO Attainment" "PO" =
      Except.ok { heading := "Mapping of CO with POs:"
                  columns := ["CO", "PO1"]
                  rows := [] } := by
  refine ⟨by decide, by decide, ?_⟩
  rw [C8_empty_region_amended exSheetEmptyRegion "PSO Attainment" "PO" 0 (by decide)
    (by decide) (by decide)]
  decide

/-- C7, counterexample: the target-value scan returns the *first* numeric
cell of its marker row (`"1"`), not the last as a reverse scan would
(`Cell.intv 2`); and it matches its label case-insensitively: it fires on a
row whose cells do not contain the label `"number of students scoring >="`
case-sensitively. -/
theorem C7_counterexample :
    extract_target_value exSheetC7 = "1" ∧
    (exSheetC7.getD 0 []).reverse.find? Cell.isNumber = some (Cell.intv 2) ∧
    extract_target_value exSheetC7b = "5" ∧
    (∀ c ∈ exSheetC7b.getD 0 [],
      strContains (cellStrBlank c) "number of students scoring >=" = false) := by
  refine ⟨by decide, by decide, by decide, by decide⟩

/-- C7, amended: the three attainment-level scans behave as the claim says —
first row containing the label case-sensitively, reverse scan, first numeric
cell, absent (`none`) when the marker row has no numeric cell; the
target-value scan instead matches its label case-insensitively, scans
forward, and skips marker rows without a numeric cell, returning the
sentinel `"-"` when no marker row with a numeric cell exists. -/
theorem C7_summary_scans_amended (label : String) (sheet : List (List Cell)) :
    scan_attainment label sheet =
      (sheet.find? (attMarkerRow label)).bind (fun r => r.reverse.find? Cell.isNumber) ∧
    extract_target_value sheet =
      (match sheet.find? (fun r => tvMarkerRow r && r.any Cell.isNumber) with
       | some r =>
         (match r.find? Cell.isNumber with
          | some (Cell.intv n) => toString n
          | some (Cell.num q) => formatRat2 q
          | _ => "-")
       | none => "-") := by
  induction sheet with
  | nil => exact ⟨rfl, rfl⟩
  | cons r rs ih =>
    constructor
    · by_cases h : attMarkerRow label r
      · rw [List.find?_cons_of_pos _ h]
        simp [scan_attainment, h]
      · rw [List.find?_cons_of_neg _ h]
        simpa [scan_attainment, h] using ih.1
    · by_cases h1 : tvMarkerRow r
      · by_cases h2 : r.any Cell.isNumber
        · have h12 : (tvMarkerRow r && r.any Cell.isNumber) = true := by
            simp [h1, h2]
          rw [@List.find?_cons_of_pos _ (fun row => tvMarkerRow row && row.any Cell.isNumber)
            r rs h12]
          have hs : (r.find? Cell.isNumber).isSome = true := by
            rw [List.find?_isSome]
            simpa using List.any_eq_true.1 h2
          obtain ⟨c, hc⟩ := Option.isSome_iff_exists.1 hs
          have hcn := List.find?_some hc
          cases c with
          | intv n => simp [extract_target_value, h1, hc]
          | num q => simp [extract_target_value, h1, hc]
          | absent => simp [Cell.isNumber] at hcn
          | str s => simp [Cell.isNumber] at hcn
        · have h12 : ¬((tvMarkerRow r && r.any Cell.isNumber) = true) := by
            simp [h1, h2]
          rw [@List.find?_cons_of_neg _ (fun row => tvMarkerRow row && row.any Cell.isNumber)
            r rs h12]
          have hfn : r.find? Cell.isNumber = none := by
            rw [List.find?_eq_none]
            intro x hx hxn
            exact h2 (List.any_eq_true.2 ⟨x, hx, hxn⟩)
          simpa [extract_target_value, h1, hfn] using ih.2
      · have h12 : ¬((tvMarkerRow r && r.any Cell.isNumber) = true) := by
          simp [h1]
        rw [@List.find?_cons_of_neg _ (fun row => tvMarkerRow row && row.any Cell.isNumber)
          r rs h12]
        simpa [extract_target_value, h1] using ih.2

/-- C10, counterexample: on a sheet whose `"po attainment"` marker and
CO/PO header row both exist but where the header row is the last row,
`extract_po_attainment` raises (the out-of-range `df.iloc[header_idx + 1]`)
instead of returning a one-data-row table as the claim's "otherwise" branch
asserts. -/
theorem C10_counterexample :
    extract_po_attainment exSheetC10 = Except.error () ∧
    findFirstIdx paMarkerRow (prepSheet exSheetC10) = some 0 ∧
    findIdxFrom (prepSheet exSheetC10) 1 poAttHeaderRow = some 1 := by
  refine ⟨by decide, by decide, by decide⟩

/-- C10, amended: `extract_po_attainment` returns `None` exactly when no
cell equals `"po attainment"` (trimmed, case-insensitively) or no row after
that marker passes the CO/PO header test; when marker and header exist and
a row follows the header, it returns a one-data-row table; when the header
row is the last row, the data-row lookup fails with an `IndexError`. -/
theorem C10_po_attainment_amended (sheet : List (List Cell)) :
    (extract_po_attainment sheet = Except.ok none ↔
      (findFirstIdx paMarkerRow (prepSheet sheet) = none ∨
        ∃ pa, findFirstIdx paMarkerRow (prepSheet sheet) = some pa ∧
          findIdxFrom (prepSheet sheet) (pa + 1) poAttHeaderRow = none)) ∧
    (∀ pa hi, findFirstIdx paMarkerRow (prepSheet sheet) = some pa →
      findIdxFrom (prepSheet sheet) (pa + 1) poAttHeaderRow = some hi →
      hi + 1 < (prepSheet sheet).length →
      ∃ t, extract_po_attainment sheet = Except.ok (some t) ∧ t.rows.length = 1) ∧
    (∀ pa hi, findFirstIdx paMarkerRow (prepSheet sheet) = some pa →
      findIdxFrom (prepSheet sheet) (pa + 1) poAttHeaderRow = some hi →
      ¬(hi + 1 < (prepSheet sheet).length) →
      extract_po_attainment sheet = Except.error ()) := by
  refine ⟨⟨?_, ?_⟩, ?_, ?_⟩
  · intro h
    cases hpa : findFirstIdx paMarkerRow (prepSheet sheet) with
    | none => exact Or.inl rfl
    | some pa =>
      refine Or.inr ⟨pa, rfl, ?_⟩
      cases hhi : findIdxFrom (prepSheet sheet) (pa + 1) poAttHeaderRow with
      | none => rfl
      | some hi =>
        exfalso
        simp only [extract_po_attainment, hpa, hhi] at h
        by_cases hlt : hi + 1 < (prepSheet sheet).length
        · rw [if_pos hlt] at h
          simp at h
        · rw [if_neg hlt] at h
          simp at h
  · rintro (h | ⟨pa, hpa, hhi⟩)
    · simp [extract_po_attainment, h]
    · simp [extract_po_attainment, hpa, hhi]
  · intro pa hi hpa hhi hlt
    simp only [extract_po_attainment, hpa, hhi]
    rw [if_pos hlt]
    exact ⟨_, rfl, rfl⟩
  · intro pa hi hpa hhi hlt
    simp only [extract_po_attainment, hpa, hhi]
    rw [if_neg hlt]

/-- Witness for the amended C10: with a data row after the header the
function returns a one-data-row table. -/
theorem C10_po_attainment_amended_witness :
    findFirstIdx paMarkerRow (prepSheet exSheetC10b) = some 0 ∧
    ∃ t, extract_po_attainment exSheetC10b = Except.ok (some t) ∧ t.rows.length = 1 :=
  ⟨by decide,
   (C10_po_attainment_amended exSheetC10b).2.1 0 1 (by decide) (by decide) (by decide)⟩

lemma length_le_sheetWidth {s : List (List Cell)} {r : List Cell} (h : r ∈ s) :
    r.length ≤ sheetWidth s := by
  induction s with
  | nil => cases h
  | cons a l ih =>
    rcases List.mem_cons.1 h with rfl | h'
    · exact le_max_left _ _
    · exact le_trans (ih h') (le_max_right _ _)

lemma rectangular_row_length {s : List (List Cell)} {r : List Cell}
    (h : r ∈ rectangular s) : r.length = sheetWidth s := by
  obtain ⟨r0, h0, rfl⟩ := List.mem_map.1 h
  have hle := length_le_sheetWidth h0
  simp [padRow]
  omega

lemma rectangular_getD_length (s : List (List Cell)) (i : ℕ)
    (h : i < (rectangular s).length) :
    ((rectangular s).getD i []).length = sheetWidth s :=
  rectangular_row_length (getD_mem_of_lt _ i [] h)

lemma evalData_ne_nil (sheet : List (List Cell)) (i : ℕ)
    (h2 : i + 4 < (rectangular sheet).length)
    (h3 : evalHeader (rectangular sheet) i ≠ []) :
    evalData (rectangular sheet) i (evalHeader (rectangular sheet) i).length ≠ [] := by
  have hw3 : ((rectangular sheet).getD (i + 3) []).length = sheetWidth sheet :=
    rectangular_getD_length _ _ (by omega)
  have hw4 : ((rectangular sheet).getD (i + 4) []).length = sheetWidth sheet :=
    rectangular_getD_length _ _ (by omega)
  have hhle : (evalHeader (rectangular sheet) i).length ≤ sheetWidth sheet - 4 := by
    unfold evalHeader
    calc (List.filterMap _ _).length
        ≤ (((rectangular sheet).getD (i + 3) []).drop 4).length :=
          List.length_filterMap_le _ _
      _ = sheetWidth sheet - 4 := by rw [List.length_drop, hw3]
  have hpos : 0 < (evalHeader (rectangular sheet) i).length := List.length_pos.2 h3
  rw [← List.length_pos]
  unfold evalData
  rw [List.length_map, List.length_take, List.length_drop, hw4]
  rw [lt_min_iff]
  exact ⟨hpos, by omega⟩

lemma po_eval_go_no_marker (df : List (List Cell)) :
    ∀ (k : ℕ) (rows : List (List Cell)), (∀ r ∈ rows, peMarkerRow r = false) →
      po_eval_go df k rows = none := by
  intro k rows
  induction rows generalizing k with
  | nil => intro _; rfl
  | cons r rs ih =>
    intro h
    have hr : peMarkerRow r = false := h r (by simp)
    simp [po_eval_go, hr]
    exact ih (k + 1) (fun x hx => h x (List.mem_cons_of_mem _ hx))

lemma po_eval_go_first_hit (df : List (List Cell)) (i : ℕ)
    (h0 : ∀ j, j < i → peMarkerRow (df.getD j []) = false)
    (h1 : peMarkerRow (df.getD i []) = true)
    (h2 : i + 4 < df.length)
    (h3 : 0 < (evalHeader df i).length)
    (h4 : 0 < (evalData df i (evalHeader df i).length).length) :
    ∀ (k : ℕ) (rows : List (List Cell)), df.drop k = rows → k ≤ i →
      po_eval_go df k rows =
        some (evalHeader df i, evalData df i (evalHeader df i).length) := by
  intro k rows
  induction rows generalizing k with
  | nil =>
    intro hdrop hki
    exfalso
    have hlen := congrArg List.length hdrop
    rw [List.length_drop] at hlen
    simp at hlen
    omega
  | cons r rs ih =>
    intro hdrop hki
    have hk : k < df.length := by
      by_contra hk
      rw [List.drop_of_length_le (by omega)] at hdrop
      simp at hdrop
    have hgd : df.getD k [] = df[k] := by
      rw [List.getD_eq_getElem?_getD, List.getElem?_eq_getElem hk]
      rfl
    have hcons : df.getD k [] :: df.drop (k + 1) = r :: rs := by
      rw [hgd, ← List.drop_eq_getElem_cons hk]
      exact hdrop
    injection hcons with hr hrs
    by_cases hik : k = i
    · subst hik
      have hm : peMarkerRow r = true := hr ▸ h1
      simp [po_eval_go, hm, h2, h3, h4]
    · have hm : peMarkerRow r = false := hr ▸ h0 k (by omega)
      simp [po_eval_go, hm]
      exact ih (k + 1) hrs (by omega)

/-- C3, counterexample: the marker sits at row 0 of `exSheetC3empty` with
`0 + 4` inside the sheet, yet the function returns `none` — not the
(empty) header and data the claim asserts — because the derived header is
empty and the scan moves on. -/
theorem C3_counterexample :
    extract_po_evaluation_table exSheetC3empty = none ∧
    peMarkerRow ((rectangular exSheetC3empty).getD 0 []) = true ∧
    0 + 4 < (rectangular exSheetC3empty).length ∧
    evalHeader (rectangular exSheetC3empty) 0 = [] := by
  refine ⟨by decide, by decide, by decide, by decide⟩

/-- C3, amended: when row `i` is the first row containing `"PO Attainment"`
(case-sensitively, in a trimmed cell), `i + 4` is inside the sheet, and the
header formed from the non-empty trimmed cells of row `i + 3` from column
index 4 is nonempty, `extract_po_evaluation_table` returns that header
together with the data of row `i + 4` from column index 4 truncated to the
header's length, numeric values formatted with 2 decimal places and absent
cells rendered `"-"`; with no marker row at all it returns `None`.  (When
the conditions fail at the first marker row the scan continues with later
rows, as the counterexample shows.) -/
theorem C3_po_evaluation_amended (sheet : List (List Cell)) (i : ℕ)
    (h0 : ∀ j, j < i → peMarkerRow ((rectangular sheet).getD j []) = false)
    (h1 : peMarkerRow ((rectangular sheet).getD i []) = true)
    (h2 : i + 4 < (rectangular sheet).length)
    (h3 : evalHeader (rectangular sheet) i ≠ []) :
    extract_po_evaluation_table sheet =
      some (evalHeader (rectangular sheet) i,
        evalData (rectangular sheet) i (evalHeader (rectangular sheet) i).length) ∧
    ∀ s2 : List (List Cell), (∀ r ∈ rectangular s2, peMarkerRow r = false) →
      extract_po_evaluation_table s2 = none := by
  constructor
  · have h4 := evalData_ne_nil sheet i h2 h3
    simp only [extract_po_evaluation_table]
    exact po_eval_go_first_hit (rectangular sheet) i h0 h1 h2 (List.length_pos.2 h3)
      (List.length_pos.2 h4) 0 (rectangular sheet) (by simp) (by omega)
  · intro s2 h
    simp only [extract_po_evaluation_table]
    exact po_eval_go_no_marker (rectangular s2) 0 (rectangular s2) h

/-- Witness for the amended C3 at the claim's own scenario: marker at row
10, header row 13 = `["CO","","","","PO1","PO2"]`, data row 14 =
`["CO1","","","",75.0,80.0]` yields `(["PO1","PO2"], ["75.00","80.00"])`. -/
theorem C3_po_evaluation_amended_witness :
    extract_po_evaluation_table exSheetC3 = some (["PO1", "PO2"], ["75.00", "80.00"]) := by
  rw [(C3_po_evaluation_amended exSheetC3 10 (by decide) (by decide) (by decide)
    (by decide)).1]
  decide
